import Mathlib

/-!
RoadCast API — verification of the spec against the code.

Shallow embedding of the RoadCast weather API (two hosting shells:
`src/api/index.py`, a FastAPI endpoint, and `src/main.py`, an AWS
Lambda handler; both share the same business logic).

Modelling conventions:
* Timestamps (`time.time()`, parsed ISO datetimes) are integers counting
  seconds since the Unix epoch, UTC.  Python's floor division `//` is
  `Int.fdiv`.
* Per-day forecast values are opaque JSON scalars, modelled by a type
  parameter `α` (the code never inspects them; it only moves them around).
  Witness theorems instantiate `α := String`.
* A parsed upstream forecast JSON object is `Forecast α`: `none` models a
  JSON object without a `"daily"` key (subscripting it raises `KeyError`),
  `some daily` models one whose `"daily"` object is the association list
  `daily`.
* Network I/O is injected: a fetch attempt's outcome is a parameter
  (`none` = the request raised, `some v` = it returned `v`).  The
  warnings path is injected as an oracle `String → Option (List
  WarningElem)` from the `Authorization` credential actually used to the
  downloaded-and-parsed warning elements (`none` = any exception while
  listing files, downloading, or parsing XML).
-/

/-- A severe-weather warning as emitted in the response body:
`{"color": ..., "type": ...}` built from `findtext("awarenessLevel")` and
`findtext("phenomenon")` (`findtext` yields `None` when the tag is absent). -/
structure Warning where
  color : Option String
  type : Option String
deriving DecidableEq, Repr

/-- One parsed `<warning>` XML element: start/end instants (seconds since
epoch, UTC, from `datetime.fromisoformat`) and the optional awareness-level /
phenomenon texts. -/
structure WarningElem where
  startTime : Int
  endTime : Int
  awarenessLevel : Option String
  phenomenon : Option String
deriving DecidableEq, Repr

/-- The `"daily"` JSON object of the forecast payload: a mapping from field
name to the ordered per-day value array, modelled as an association list. -/
abbrev Daily (α : Type) := List (String × List α)

/-- A parsed upstream forecast response object; `none` models a JSON object
with no `"daily"` key. -/
abbrev Forecast (α : Type) := Option (Daily α)

/-- Python `dict.get(key)` on the `"daily"` object (first binding wins). -/
def Daily.get? (daily : Daily α) (key : String) : Option (List α) :=
  (daily.find? (fun kv => kv.fst == key)).map (fun kv => kv.snd)

/-- Python exceptions that the response-building path can raise. -/
inductive PyExc where
  | indexError
  | keyError (key : String)
deriving DecidableEq, Repr

/-- Renders `str(exc)` for the exceptions above (Python shows a `KeyError`
as its quoted key). -/
def PyExc.msg : PyExc → String
  | .indexError => "list index out of range"
  | .keyError k => "\x27" ++ k ++ "\x27"

/-- The output record (`RoadCastApiResponse.__init__` defaults: every field
`None`, warnings `[]`).  `to_dict` is a field-for-field projection of this
record, so the record itself stands for the serialized body. -/
structure RoadCastApiResponse (α : Type) where
  min_temp : Option α := none
  max_temp : Option α := none
  rain : Option α := none
  showers : Option α := none
  snow : Option α := none
  sunrise : Option α := none
  sunset : Option α := none
  min_visibility : Option α := none
  max_visibility : Option α := none
  wind_speed : Option α := none
  wind_gusts : Option α := none
  warnings : List Warning := []
deriving DecidableEq, Repr

/-- The inner `get_val` of `RoadCastApiResponse.from_api`:
`values = daily.get(key, []); values[index] if index < len(values) else None`. -/
def get_val (daily : Daily α) (index : Nat) (key : String) : Option α :=
  let values := (daily.get? key).getD []
  if index < values.length then values[index]? else none

/-- Embeds `RoadCastApiResponse.from_api(response, index)`: subscripting
`response["daily"]` raises `KeyError` when the key is absent; otherwise the
eleven tracked fields are extracted with `get_val`. -/
def RoadCastApiResponse.from_api (response : Forecast α) (index : Nat) :
    Except PyExc (RoadCastApiResponse α) :=
  match response with
  | none => .error (.keyError "daily")
  | some daily =>
      .ok {
        min_temp := get_val daily index "temperature_2m_min"
        max_temp := get_val daily index "temperature_2m_max"
        rain := get_val daily index "rain_sum"
        showers := get_val daily index "showers_sum"
        snow := get_val daily index "snowfall_sum"
        sunrise := get_val daily index "sunrise"
        sunset := get_val daily index "sunset"
        min_visibility := get_val daily index "visibility_min"
        max_visibility := get_val daily index "visibility_max"
        wind_speed := get_val daily index "wind_speed_10m_max"
        wind_gusts := get_val daily index "wind_gusts_10m_max" }

/-- Embeds `weather_response_mapper(response, day_index, warnings)`: build the record
via `from_api`, then set `api.warnings = warnings or []` (`None` and the empty
list both become `[]`). -/
def weather_response_mapper (response : Forecast α) (day_index : Nat)
    (warnings : Option (List Warning)) : Except PyExc (RoadCastApiResponse α) :=
  (RoadCastApiResponse.from_api response day_index).map
    (fun api => { api with warnings := warnings.getD [] })

/-- Computes `end_of_tomorrow` as the code does:
`(now + timedelta(days=1)).replace(hour=23, minute=59, second=59)` — add one
day, then replace the time-of-day with 23:59:59 (the date part of the shifted
instant is kept; `//` is floor division on the UTC day number). -/
def endOfTomorrow (now : Int) : Int :=
  (Int.fdiv (now + 86400) 86400) * 86400 + (23 * 3600 + 59 * 60 + 59)

/-- Embeds `parse_knmi_warnings` on the already-parsed `<warning>` elements of the
XML document: keep those with `start <= end_of_tomorrow and end >= now`,
projecting each to its `{color, type}` pair. -/
def parse_knmi_warnings (now : Int) (els : List WarningElem) : List Warning :=
  (els.filter fun el =>
      decide (el.startTime ≤ endOfTomorrow now) && decide (now ≤ el.endTime)).map
    fun el => { color := el.awarenessLevel, type := el.phenomenon }

/-- One entry of the warnings provider's file listing: its `created`
timestamp and `downloadUrl`. -/
structure KFile where
  created : Int
  downloadUrl : String
deriving DecidableEq, Repr

/-- The file-selection step of `fetch_knmi_warnings`:
`sorted(files, key=lambda f: f["created"], reverse=True)[0]` — sort by
creation timestamp, newest first, and take the head (indexing an empty
listing raises, modelled by `none`). -/
def fetch_latest_file (files : List KFile) : Option KFile :=
  (files.mergeSort fun a b => decide (b.created ≤ a.created)).head?

/-- Python `int(s)` on a string: optional surrounding whitespace, optional
sign, then a nonempty digit run; anything else raises `ValueError` (`none`). -/
def pyIntDigits? (cs : List Char) : Option Nat :=
  if cs.isEmpty then none
  else if cs.all (fun c => c.isDigit) then
    some (cs.foldl (fun n c => n * 10 + (c.toNat - 48)) 0)
  else none

/-- Strips leading and trailing whitespace from a character list (Python
`int()` ignores surrounding whitespace). -/
def stripWs (cs : List Char) : List Char :=
  ((cs.dropWhile (fun c => c.isWhitespace)).reverse.dropWhile
    (fun c => c.isWhitespace)).reverse

/-- Python `int(s)` for a decimal string (see `pyIntDigits?`). -/
def pyInt? (s : String) : Option Int :=
  match stripWs s.toList with
  | [] => none
  | c :: rest =>
      if c = '-' then (pyIntDigits? rest).map (fun n => -(n : Int))
      else if c = '+' then (pyIntDigits? rest).map (fun n => (n : Int))
      else (pyIntDigits? (c :: rest)).map (fun n => (n : Int))

/-- The lambda handler's day-parameter normalization:
`int(query_params.get('day', 0))` with `ValueError`/`TypeError` falling back
to `0`, then `if day_index < 0: day_index = 0`.  An absent
`queryStringParameters` dict behaves like an empty one, so the only input is
the optional raw `day` string. -/
def effectiveDayIndex (day? : Option String) : Nat :=
  let day_index : Int :=
    match day? with
    | none => 0
    | some s => (pyInt? s).getD 0
  if day_index < 0 then 0 else day_index.toNat

/-- The process-wide cache module state: `data_cache` (last successfully
parsed forecast JSON, `None` initially) and `last_loaded` (epoch seconds of
the last successful fetch, `0` initially). -/
structure CacheState (α : Type) where
  data_cache : Option (Forecast α)
  last_loaded : Int
deriving DecidableEq, Repr

/-- Constant `CACHE_TTL = 120`. -/
def CACHE_TTL : Int := 120

/-- The shared cache-refresh step: when `data_cache is None or cache_age >
CACHE_TTL`, attempt the upstream fetch; on success overwrite payload and
timestamp together, on failure (`fetchResult = none`) leave the state
untouched.  Otherwise no fetch happens. -/
def refreshCache (st : CacheState α) (now : Int)
    (fetchResult : Option (Forecast α)) : CacheState α :=
  if st.data_cache.isNone || decide (now - st.last_loaded > CACHE_TTL) then
    match fetchResult with
    | some payload => { data_cache := some payload, last_loaded := now }
    | none => st
  else st

/-- The serialized lambda response body: either the summary dict produced by
`to_dict` or `json.dumps({"error": msg})`. -/
inductive LambdaBody (α : Type) where
  | summary (r : RoadCastApiResponse α)
  | errorBody (msg : String)
deriving DecidableEq, Repr

/-- An API-Gateway-style lambda response. -/
structure LambdaResponse (α : Type) where
  statusCode : Nat
  body : LambdaBody α
deriving DecidableEq, Repr

/-- A handler run's observable outcome: the response and the cache state the
process is left in. -/
structure LambdaOutcome (α : Type) where
  response : LambdaResponse α
  state : CacheState α
deriving DecidableEq, Repr

/-- The warnings block of the lambda handler (src/main.py):
`fetch_knmi_warnings("KNMI_API_KEY_HIER")` — the credential is this hardcoded
literal — then `parse_knmi_warnings`, with the whole `try` degrading any
exception (`warnFetch _ = none`) to `[]`. -/
def lambdaWarnings (now : Int)
    (warnFetch : String → Option (List WarningElem)) : List Warning :=
  match warnFetch "KNMI_API_KEY_HIER" with
  | some els => parse_knmi_warnings now els
  | none => []

/-- The warnings block of the FastAPI handler (src/api/index.py):
`api_key = os.getenv("KNMI_API_KEY", "")`; only `if api_key:` is the
fetch-and-parse attempted, its `try` degrading any exception to `[]`. -/
def webWarnings (now : Int) (env : String → Option String)
    (warnFetch : String → Option (List WarningElem)) : List Warning :=
  let api_key := (env "KNMI_API_KEY").getD ""
  if api_key ≠ "" then
    match warnFetch api_key with
    | some els => parse_knmi_warnings now els
    | none => []
  else []

/-- Embeds `lambda_handler` (src/main.py).  Inputs beyond the request: the cache
state `st`, the clock `now`, the process environment `_env` (the source reads
no environment variable, so the definition ignores it), the outcome
`fetchResult` of the forecast fetch were it attempted, and the warnings
oracle `warnFetch` mapping the `Authorization` credential used to the
downloaded-and-parsed warning elements (`none` models any exception on that
path).  The credential passed to `fetch_knmi_warnings` is the hardcoded
literal `"KNMI_API_KEY_HIER"`. -/
def lambda_handler (st : CacheState α) (now : Int) (day? : Option String)
    (_env : String → Option String)
    (fetchResult : Option (Forecast α))
    (warnFetch : String → Option (List WarningElem)) : LambdaOutcome α :=
  let day_index := effectiveDayIndex day?
  let st1 := refreshCache st now fetchResult
  match st1.data_cache with
  | none =>
      { response := { statusCode := 500, body := .errorBody "Weather fetch failed" }
        state := st1 }
  | some payload =>
      let warnings : List Warning := lambdaWarnings now warnFetch
      match weather_response_mapper payload day_index (some warnings) with
      | .ok body =>
          { response := { statusCode := 200, body := .summary body }, state := st1 }
      | .error .indexError =>
          { response := { statusCode := 400, body := .errorBody "Day index out of range" }
            state := st1 }
      | .error e =>
          { response := { statusCode := 500, body := .errorBody e.msg }, state := st1 }

/-- A raised `HTTPException(status_code, detail)`. -/
structure HTTPError where
  status_code : Nat
  detail : String
deriving DecidableEq, Repr

deriving instance DecidableEq for Except

/-- A FastAPI run's observable outcome: the returned summary dict or the
raised `HTTPException`, plus the cache state left behind. -/
structure WebOutcome (α : Type) where
  result : Except HTTPError (RoadCastApiResponse α)
  state : CacheState α
deriving DecidableEq, Repr

/-- Embeds `get_weather` (src/api/index.py).  Its `day` is already a validated
non-negative integer (`Query(default=0, ge=0)`).  The credential is
`os.getenv("KNMI_API_KEY", "")`, read from the environment `env`; the whole
warnings block is guarded by `if api_key:`, so an absent or empty variable
skips it. -/
def get_weather (st : CacheState α) (now : Int) (day : Nat)
    (env : String → Option String)
    (fetchResult : Option (Forecast α))
    (warnFetch : String → Option (List WarningElem)) : WebOutcome α :=
  let st1 := refreshCache st now fetchResult
  match st1.data_cache with
  | none =>
      { result := .error { status_code := 500, detail := "Weather fetch failed" }
        state := st1 }
  | some payload =>
      let warnings : List Warning := webWarnings now env warnFetch
      match weather_response_mapper payload day (some warnings) with
      | .ok body => { result := .ok body, state := st1 }
      | .error .indexError =>
          { result := .error { status_code := 400, detail := "Day index out of range" }
            state := st1 }
      | .error e =>
          { result := .error { status_code := 500, detail := e.msg }, state := st1 }

/-- The summary record built from a well-formed (`"daily"`-carrying) payload
at a given day index, with a given warnings list attached: the normal-path
value of `weather_response_mapper`. -/
def summaryOf (daily : Daily α) (index : Nat) (ws : List Warning) :
    RoadCastApiResponse α :=
  { min_temp := get_val daily index "temperature_2m_min"
    max_temp := get_val daily index "temperature_2m_max"
    rain := get_val daily index "rain_sum"
    showers := get_val daily index "showers_sum"
    snow := get_val daily index "snowfall_sum"
    sunrise := get_val daily index "sunrise"
    sunset := get_val daily index "sunset"
    min_visibility := get_val daily index "visibility_min"
    max_visibility := get_val daily index "visibility_max"
    wind_speed := get_val daily index "wind_speed_10m_max"
    wind_gusts := get_val daily index "wind_gusts_10m_max"
    warnings := ws }

/-- HTTP status of a FastAPI run: 200 for a returned body, else the raised
exception's status code. -/
def exceptStatus (r : Except HTTPError β) : Nat :=
  match r with
  | .ok _ => 200
  | .error e => e.status_code

/-- The spec's reference notion of "end of tomorrow", written from the spec's
words for comparison with the code's `endOfTomorrow`: 23:59:59 UTC on the day
after the (UTC) day containing `now`. -/
def specEndOfTomorrow (now : Int) : Int :=
  (Int.fdiv now 86400 + 1) * 86400 + (24 * 3600 - 1)

/-- The spec's reference notion of an **active** warning, written from the
spec's words: start at or before end of tomorrow, end at or after now. -/
def specActive (now : Int) (el : WarningElem) : Prop :=
  el.startTime ≤ specEndOfTomorrow now ∧ now ≤ el.endTime

instance (now : Int) (el : WarningElem) : Decidable (specActive now el) := by
  unfold specActive; infer_instance

/-! ## Shared lemmas -/

theorem endOfTomorrow_eq_spec (now : Int) : endOfTomorrow now = specEndOfTomorrow now := by
  unfold endOfTomorrow specEndOfTomorrow
  rw [Int.fdiv_eq_ediv _ (by norm_num), Int.fdiv_eq_ediv _ (by norm_num)]
  omega

theorem weather_response_mapper_ok (daily : Daily α) (index : Nat) (ws : List Warning) :
    weather_response_mapper (some daily) index (some ws) = .ok (summaryOf daily index ws) := rfl

theorem refreshCache_none (st : CacheState α) (now : Int) :
    refreshCache st now none = st := by
  unfold refreshCache; split <;> rfl

theorem refreshCache_fresh (st : CacheState α) (now : Int) (f : Option (Forecast α))
    (d : Forecast α) (h : st.data_cache = some d) (hage : now - st.last_loaded ≤ CACHE_TTL) :
    refreshCache st now f = st := by
  unfold refreshCache
  rw [if_neg]
  simp [h]
  omega

theorem refreshCache_stale_success (st : CacheState α) (now : Int) (p : Forecast α)
    (hage : now - st.last_loaded > CACHE_TTL) :
    refreshCache st now (some p) = { data_cache := some p, last_loaded := now } := by
  unfold refreshCache
  rw [if_pos]
  simp
  omega

/-- Case analysis of a `lambda_handler` run: a 500 when the refreshed cache is
still empty, a 500 (`KeyError`) when the cached JSON lacks `"daily"`, and
otherwise a 200 carrying the summary; the cache state left behind is always
`refreshCache`'s output, and no run produces a 400 (the `except IndexError`
branch is unreachable because `get_val` bounds-checks). -/
theorem lambda_handler_cases (st : CacheState α) (now : Int) (day? : Option String)
    (env : String → Option String) (f : Option (Forecast α))
    (w : String → Option (List WarningElem)) :
    lambda_handler st now day? env f w =
      match (refreshCache st now f).data_cache with
      | none =>
          { response := { statusCode := 500, body := .errorBody "Weather fetch failed" }
            state := refreshCache st now f }
      | some none =>
          { response := { statusCode := 500, body := .errorBody (PyExc.keyError "daily").msg }
            state := refreshCache st now f }
      | some (some daily) =>
          { response :=
              { statusCode := 200
                body := .summary (summaryOf daily (effectiveDayIndex day?) (lambdaWarnings now w)) }
            state := refreshCache st now f } := by
  unfold lambda_handler
  cases hd : (refreshCache st now f).data_cache with
  | none => simp [hd]
  | some payload =>
      cases payload with
      | none => simp [hd, weather_response_mapper]; rfl
      | some daily => simp [hd, weather_response_mapper_ok]

/-- Case analysis of a `get_weather` run, exactly parallel to
`lambda_handler_cases`. -/
theorem get_weather_cases (st : CacheState α) (now : Int) (day : Nat)
    (env : String → Option String) (f : Option (Forecast α))
    (w : String → Option (List WarningElem)) :
    get_weather st now day env f w =
      match (refreshCache st now f).data_cache with
      | none =>
          { result := .error { status_code := 500, detail := "Weather fetch failed" }
            state := refreshCache st now f }
      | some none =>
          { result := .error { status_code := 500, detail := (PyExc.keyError "daily").msg }
            state := refreshCache st now f }
      | some (some daily) =>
          { result := .ok (summaryOf daily day (webWarnings now env w))
            state := refreshCache st now f } := by
  unfold get_weather
  cases hd : (refreshCache st now f).data_cache with
  | none => simp [hd]
  | some payload =>
      cases payload with
      | none => simp [hd, weather_response_mapper]; rfl
      | some daily => simp [hd, weather_response_mapper_ok]

theorem lambda_handler_state (st : CacheState α) (now : Int) (day? : Option String)
    (env : String → Option String) (f : Option (Forecast α))
    (w : String → Option (List WarningElem)) :
    (lambda_handler st now day? env f w).state = refreshCache st now f := by
  rw [lambda_handler_cases]
  cases hdc : (refreshCache st now f).data_cache with
  | none => simp [hdc]
  | some fc => cases fc <;> simp [hdc]

theorem get_weather_state (st : CacheState α) (now : Int) (day : Nat)
    (env : String → Option String) (f : Option (Forecast α))
    (w : String → Option (List WarningElem)) :
    (get_weather st now day env f w).state = refreshCache st now f := by
  rw [get_weather_cases]
  cases hdc : (refreshCache st now f).data_cache with
  | none => simp [hdc]
  | some fc => cases fc <;> simp [hdc]

/-! ## Claim theorems -/

/-- **C1** (the spec's claim fails on the code): with the spec's own example
payload, `temperature_2m_min: [2.1, 3.4]` (two forecast days) and
`day_index = 5`, both entry points answer **200** with an all-null summary —
not the 400 the spec requires.  `get_val` bounds-checks every field and
returns null instead of raising, so the `except IndexError` → 400 branch of
each handler is unreachable. -/
theorem day_index_out_of_range_yields_200 :
    (lambda_handler (α := String) ⟨none, 0⟩ 1000 (some "5") (fun _ => none)
        (some (some [("temperature_2m_min", ["2.1", "3.4"])])) (fun _ => some [])).response
      = { statusCode := 200
          body := .summary (summaryOf [("temperature_2m_min", ["2.1", "3.4"])] 5 []) }
    ∧ (summaryOf (α := String) [("temperature_2m_min", ["2.1", "3.4"])] 5 []).min_temp = none
    ∧ (get_weather (α := String) ⟨none, 0⟩ 1000 5 (fun _ => none)
        (some (some [("temperature_2m_min", ["2.1", "3.4"])])) (fun _ => some [])).result
      = .ok (summaryOf [("temperature_2m_min", ["2.1", "3.4"])] 5 []) := by
  exact ⟨rfl, rfl, rfl⟩

/-- **C2**: for every forecast `daily` object, every `day_index`, and every
field, `from_api` never errors on a payload that has a `daily` object: an
absent field reads as the empty sequence (hence null output); a field whose
sequence covers `day_index` contributes the value at that index (which is
non-null); and a field whose sequence is too short contributes null. -/
theorem from_api_lenient_field_extraction (α : Type) (daily : Daily α) (index : Nat) :
    RoadCastApiResponse.from_api (some daily) index = .ok (summaryOf daily index [])
    ∧ (∀ key, daily.get? key = none → get_val daily index key = none)
    ∧ (∀ key vs, daily.get? key = some vs → index < vs.length →
        get_val daily index key = vs[index]? ∧ (vs[index]?).isSome = true)
    ∧ (∀ key vs, daily.get? key = some vs → vs.length ≤ index →
        get_val daily index key = none) := by
  refine ⟨rfl, ?_, ?_, ?_⟩
  · intro key h
    simp [get_val, h]
  · intro key vs h hlt
    refine ⟨by simp [get_val, h, hlt], ?_⟩
    simp [List.getElem?_eq_getElem hlt]
  · intro key vs h hle
    simp [get_val, h, Nat.not_lt.mpr hle]

theorem from_api_lenient_field_extraction_witness :
    RoadCastApiResponse.from_api (α := String)
        (some [("temperature_2m_min", ["2.1", "3.4"])]) 1
      = .ok (summaryOf [("temperature_2m_min", ["2.1", "3.4"])] 1 [])
    ∧ get_val (α := String) [("temperature_2m_min", ["2.1", "3.4"])] 1 "temperature_2m_min"
      = some "3.4"
    ∧ get_val (α := String) [("temperature_2m_min", ["2.1", "3.4"])] 1 "rain_sum" = none := by
  refine ⟨(from_api_lenient_field_extraction String _ 1).1, ?_, ?_⟩
  · have h := ((from_api_lenient_field_extraction String
        [("temperature_2m_min", ["2.1", "3.4"])] 1).2.2.1 "temperature_2m_min"
        ["2.1", "3.4"] rfl (by decide)).1
    exact h.trans rfl
  · exact (from_api_lenient_field_extraction String
        [("temperature_2m_min", ["2.1", "3.4"])] 1).2.1 "rain_sum" rfl

/-- **C3**: the warnings parser keeps a parsed `<warning>` element exactly
when its start is at or before end of tomorrow (23:59:59 UTC on the day
after the day containing `now`) and its end is at or after `now`, both
bounds inclusive; in particular a warning starting exactly at end of
tomorrow is kept, one ending a minute before `now` is dropped, and one
starting three days from `now` is dropped. -/
theorem parse_knmi_warnings_active_filter (now : Int) (els : List WarningElem) :
    parse_knmi_warnings now els =
      (els.filter fun el => decide (specActive now el)).map
        (fun el => { color := el.awarenessLevel, type := el.phenomenon })
    ∧ (∀ el : WarningElem, el.startTime = specEndOfTomorrow now → now ≤ el.endTime →
        parse_knmi_warnings now [el] = [{ color := el.awarenessLevel, type := el.phenomenon }])
    ∧ (∀ el : WarningElem, el.endTime = now - 60 → parse_knmi_warnings now [el] = [])
    ∧ (∀ el : WarningElem, el.startTime = now + 3 * 86400 →
        parse_knmi_warnings now [el] = []) := by
  have heot := endOfTomorrow_eq_spec now
  refine ⟨?_, ?_, ?_, ?_⟩
  · unfold parse_knmi_warnings
    congr 1
    apply List.filter_congr
    intro el _
    simp [specActive, heot, Bool.decide_and]
  · intro el h1 h2
    have hs : el.startTime ≤ endOfTomorrow now := by rw [heot, h1]
    simp [parse_knmi_warnings, hs, h2]
  · intro el h
    have hn : ¬ (now ≤ el.endTime) := by omega
    simp [parse_knmi_warnings, hn]
  · intro el h
    have hlt : ¬ (el.startTime ≤ endOfTomorrow now) := by
      rw [heot, h]
      unfold specEndOfTomorrow
      rw [Int.fdiv_eq_ediv _ (by norm_num)]
      omega
    simp [parse_knmi_warnings, hlt]

theorem parse_knmi_warnings_active_filter_witness :
    parse_knmi_warnings 1700000000
        [{ startTime := specEndOfTomorrow 1700000000, endTime := 1700000100,
           awarenessLevel := some "yellow", phenomenon := some "snow" }]
      = [{ color := some "yellow", type := some "snow" }] :=
  (parse_knmi_warnings_active_filter 1700000000 []).2.1
    { startTime := specEndOfTomorrow 1700000000, endTime := 1700000100,
      awarenessLevel := some "yellow", phenomenon := some "snow" } rfl (by decide)

/-- **C4**: when the upstream forecast fetch raises, a request finding no
cached payload gets a 500 whose body carries the fixed error message (the
FastAPI shell raises `HTTPException(500)` with the same detail), while a
request finding a cached payload (with its `daily` object, per the cache
invariant) gets a 200 built from that stale payload, the failure swallowed. -/
theorem fetch_failure_stale_or_500 (α : Type) (st : CacheState α) (now : Int)
    (day? : Option String) (day : Nat) (env : String → Option String)
    (w : String → Option (List WarningElem)) :
    (st.data_cache = none →
      (lambda_handler st now day? env none w).response
        = { statusCode := 500, body := .errorBody "Weather fetch failed" }
      ∧ (get_weather st now day env none w).result
        = .error { status_code := 500, detail := "Weather fetch failed" })
    ∧ (∀ daily : Daily α, st.data_cache = some (some daily) →
      (lambda_handler st now day? env none w).response
        = { statusCode := 200
            body := .summary (summaryOf daily (effectiveDayIndex day?) (lambdaWarnings now w)) }
      ∧ (get_weather st now day env none w).result
        = .ok (summaryOf daily day (webWarnings now env w))) := by
  constructor
  · intro h
    constructor
    · rw [lambda_handler_cases, refreshCache_none, h]
    · rw [get_weather_cases, refreshCache_none, h]
  · intro daily h
    constructor
    · rw [lambda_handler_cases, refreshCache_none, h]
    · rw [get_weather_cases, refreshCache_none, h]

theorem fetch_failure_stale_or_500_witness :
    (lambda_handler (α := String) ⟨none, 0⟩ 1000 none (fun _ => none) none
        (fun _ => some [])).response
      = { statusCode := 500, body := .errorBody "Weather fetch failed" }
    ∧ (lambda_handler (α := String) ⟨some (some [("rain_sum", ["0.0"])]), 0⟩ 1000 none
        (fun _ => none) none (fun _ => some [])).response
      = { statusCode := 200
          body := .summary (summaryOf [("rain_sum", ["0.0"])] 0 []) } := by
  constructor
  · exact ((fetch_failure_stale_or_500 String ⟨none, 0⟩ 1000 none 0 (fun _ => none)
      (fun _ => some [])).1 rfl).1
  · have h := ((fetch_failure_stale_or_500 String ⟨some (some [("rain_sum", ["0.0"])]), 0⟩
      1000 none 0 (fun _ => none) (fun _ => some [])).2 [("rain_sum", ["0.0"])] rfl).1
    exact h.trans rfl

/-- **C5** (counterexample to the claim as stated): in the serverless shell
the credential is *not* sourced from an environment variable.  With an
environment carrying no variables at all, the lambda handler still runs the
warnings path — its oracle, answering only for the hardcoded literal
credential `"KNMI_API_KEY_HIER"`, is consulted and the response carries a
non-empty warnings list. -/
theorem warnings_credential_counterexample :
    (lambda_handler (α := String) ⟨some (some []), 100⟩ 100 none (fun _ => none) none
        (fun k => if k = "KNMI_API_KEY_HIER"
          then some [{ startTime := 0, endTime := 200,
                       awarenessLevel := some "yellow", phenomenon := some "ice" }]
          else none)).response
      = { statusCode := 200
          body := .summary
            (summaryOf [] 0 [{ color := some "yellow", type := some "ice" }]) }
    ∧ (summaryOf (α := String) [] 0
        [{ color := some "yellow", type := some "ice" }]).warnings ≠ [] := by
  exact ⟨rfl, by decide⟩

/-- **C5** (amended): in the web (FastAPI) shell the credential is
`os.getenv("KNMI_API_KEY", "")` and an absent (or empty) variable skips the
whole warnings path — the run is independent of the warnings oracle and the
warnings list is empty, with no error.  In the serverless shell the
credential is the hardcoded literal `"KNMI_API_KEY_HIER"`: the run is
independent of the environment, and depends on the warnings oracle only
through that literal credential. -/
theorem warnings_credential_amended (α : Type) (st : CacheState α) (now : Int)
    (day? : Option String) (day : Nat) (f : Option (Forecast α))
    (w₁ w₂ : String → Option (List WarningElem))
    (env env₁ env₂ : String → Option String) :
    ((env "KNMI_API_KEY").getD "" = "" →
      get_weather st now day env f w₁ = get_weather st now day env f w₂
      ∧ webWarnings now env w₁ = [])
    ∧ lambda_handler st now day? env₁ f w₁ = lambda_handler st now day? env₂ f w₁
    ∧ (w₁ "KNMI_API_KEY_HIER" = w₂ "KNMI_API_KEY_HIER" →
        lambda_handler st now day? env f w₁ = lambda_handler st now day? env f w₂) := by
  refine ⟨?_, rfl, ?_⟩
  · intro h
    have hw : ∀ wx : String → Option (List WarningElem), webWarnings now env wx = [] := by
      intro wx; unfold webWarnings; simp [h]
    constructor
    · rw [get_weather_cases st now day env f w₁, get_weather_cases st now day env f w₂]
      cases hdc : (refreshCache st now f).data_cache with
      | none => simp [hdc]
      | some fc => cases fc <;> simp [hdc, hw]
    · exact hw w₁
  · intro h
    rw [lambda_handler_cases st now day? env f w₁, lambda_handler_cases st now day? env f w₂]
    have hw : lambdaWarnings now w₁ = lambdaWarnings now w₂ := by
      unfold lambdaWarnings; rw [h]
    rw [hw]

theorem warnings_credential_amended_witness :
    (get_weather (α := String) ⟨some (some []), 0⟩ 50 0 (fun _ => none) none (fun _ => none)
      = get_weather ⟨some (some []), 0⟩ 50 0 (fun _ => none) none
          (fun _ => some [{ startTime := 0, endTime := 100,
                            awarenessLevel := some "red", phenomenon := some "wind" }]))
    ∧ webWarnings 50 (fun _ => none) (fun _ => none) = [] :=
  (warnings_credential_amended String ⟨some (some []), 0⟩ 50 none 0 none
      (fun _ => none)
      (fun _ => some [{ startTime := 0, endTime := 100,
                        awarenessLevel := some "red", phenomenon := some "wind" }])
      (fun _ => none) (fun _ => none) (fun _ => none)).1 rfl

/-- **C6**: a request arriving while a cached payload exists and its age is
at most 120 seconds performs no upstream forecast call — the run is
independent of the fetch outcome and serves the cache unchanged — whereas at
age 121 seconds or more a refetch is attempted: a successful fetch result
replaces the payload and the timestamp. -/
theorem cache_freshness_window (α : Type) (st : CacheState α) (d : Forecast α)
    (now : Int) (day? : Option String) (day : Nat) (env : String → Option String)
    (w : String → Option (List WarningElem)) (h : st.data_cache = some d) :
    (now - st.last_loaded ≤ 120 →
      (∀ f, lambda_handler st now day? env f w = lambda_handler st now day? env none w)
      ∧ (lambda_handler st now day? env none w).state = st
      ∧ (∀ f, get_weather st now day env f w = get_weather st now day env none w)
      ∧ (get_weather st now day env none w).state = st)
    ∧ (now - st.last_loaded ≥ 121 →
      ∀ p, (lambda_handler st now day? env (some p) w).state
              = { data_cache := some p, last_loaded := now }
         ∧ (get_weather st now day env (some p) w).state
              = { data_cache := some p, last_loaded := now }) := by
  constructor
  · intro hage
    have hrc : ∀ f, refreshCache st now f = st :=
      fun f => refreshCache_fresh st now f d h (by simpa [CACHE_TTL] using hage)
    refine ⟨?_, ?_, ?_, ?_⟩
    · intro f
      rw [lambda_handler_cases st now day? env f w,
        lambda_handler_cases st now day? env none w, hrc f, hrc none]
    · rw [lambda_handler_state, hrc]
    · intro f
      rw [get_weather_cases st now day env f w,
        get_weather_cases st now day env none w, hrc f, hrc none]
    · rw [get_weather_state, hrc]
  · intro hage p
    have hrc : refreshCache st now (some p) = { data_cache := some p, last_loaded := now } :=
      refreshCache_stale_success st now p (by simp [CACHE_TTL]; omega)
    exact ⟨by rw [lambda_handler_state, hrc], by rw [get_weather_state, hrc]⟩

theorem cache_freshness_window_witness :
    (lambda_handler (α := String) ⟨some (some []), 1000⟩ 1100 none (fun _ => none)
        (some (some [("rain_sum", ["1.0"])])) (fun _ => none)
      = lambda_handler ⟨some (some []), 1000⟩ 1100 none (fun _ => none) none (fun _ => none))
    ∧ (lambda_handler (α := String) ⟨some (some []), 1000⟩ 1121 none (fun _ => none)
        (some (some [("rain_sum", ["1.0"])])) (fun _ => none)).state
      = { data_cache := some (some [("rain_sum", ["1.0"])]), last_loaded := 1121 } := by
  constructor
  · exact ((cache_freshness_window String ⟨some (some []), 1000⟩ (some []) 1100 none 0
      (fun _ => none) (fun _ => none) rfl).1 (by decide)).1 (some (some [("rain_sum", ["1.0"])]))
  · exact ((cache_freshness_window String ⟨some (some []), 1000⟩ (some []) 1121 none 0
      (fun _ => none) (fun _ => none) rfl).2 (by decide) (some [("rain_sum", ["1.0"])])).1

/-- **C7**: a failure anywhere in the warnings fetch-and-parse sequence
(modelled by a warnings oracle that returns `none`) behaves exactly like a
successful fetch of zero warnings; the response status never depends on the
warnings oracle at all, and a summary produced under a failing oracle
carries an empty warnings list. -/
theorem warnings_failure_degrades_to_empty (α : Type) (st : CacheState α) (now : Int)
    (day? : Option String) (day : Nat) (env : String → Option String)
    (f : Option (Forecast α)) (w₁ w₂ : String → Option (List WarningElem)) :
    lambda_handler st now day? env f (fun _ => none)
      = lambda_handler st now day? env f (fun _ => some [])
    ∧ get_weather st now day env f (fun _ => none)
      = get_weather st now day env f (fun _ => some [])
    ∧ (lambda_handler st now day? env f w₁).response.statusCode
      = (lambda_handler st now day? env f w₂).response.statusCode
    ∧ exceptStatus (get_weather st now day env f w₁).result
      = exceptStatus (get_weather st now day env f w₂).result
    ∧ (∀ b, (lambda_handler st now day? env f (fun _ => none)).response.body = .summary b →
        b.warnings = []) := by
  refine ⟨rfl, rfl, ?_, ?_, ?_⟩
  · rw [lambda_handler_cases st now day? env f w₁, lambda_handler_cases st now day? env f w₂]
    cases hdc : (refreshCache st now f).data_cache with
    | none => simp [hdc]
    | some fc => cases fc <;> simp [hdc]
  · rw [get_weather_cases st now day env f w₁, get_weather_cases st now day env f w₂]
    cases hdc : (refreshCache st now f).data_cache with
    | none => simp [hdc, exceptStatus]
    | some fc => cases fc <;> simp [hdc, exceptStatus]
  · intro b hb
    rw [lambda_handler_cases] at hb
    cases hdc : (refreshCache st now f).data_cache with
    | none => rw [hdc] at hb; simp at hb
    | some fc =>
        cases fc with
        | none => rw [hdc] at hb; simp at hb
        | some daily =>
            rw [hdc] at hb
            simp at hb
            rw [← hb]
            rfl

theorem warnings_failure_degrades_to_empty_witness :
    (summaryOf (α := String) [] 0 []).warnings = [] :=
  (warnings_failure_degrades_to_empty String ⟨none, 0⟩ 100 none 0 (fun _ => none)
      (some (some [])) (fun _ => none) (fun _ => none)).2.2.2.2
    (summaryOf [] 0 []) rfl

/-- **C8**: for a non-empty file listing, the file-selection step of
`fetch_knmi_warnings` yields a listed file whose creation timestamp is
maximal among all listed files. -/
theorem fetch_latest_file_picks_max (files : List KFile) (h : files ≠ []) :
    ∃ sel, fetch_latest_file files = some sel ∧ sel ∈ files
      ∧ ∀ g ∈ files, g.created ≤ sel.created := by
  have hsorted : (files.mergeSort fun a b : KFile => decide (b.created ≤ a.created)).Pairwise
      (fun a b => decide (b.created ≤ a.created) = true) := by
    apply List.sorted_mergeSort
    · intro a b c hab hbc
      simp at hab hbc ⊢
      omega
    · intro a b
      simp
      omega
  have hperm := List.mergeSort_perm files (fun a b : KFile => decide (b.created ≤ a.created))
  unfold fetch_latest_file
  cases hm : files.mergeSort fun a b : KFile => decide (b.created ≤ a.created) with
  | nil =>
      rw [hm] at hperm
      exact absurd hperm.nil_eq.symm h
  | cons sel rest =>
      refine ⟨sel, rfl, ?_, ?_⟩
      · have : sel ∈ files.mergeSort fun a b : KFile => decide (b.created ≤ a.created) := by
          rw [hm]; exact List.mem_cons_self sel rest
        exact List.mem_mergeSort.mp this
      · intro g hg
        have hg2 : g ∈ files.mergeSort fun a b : KFile => decide (b.created ≤ a.created) :=
          List.mem_mergeSort.mpr hg
        rw [hm] at hg2 hsorted
        rcases List.mem_cons.mp hg2 with rfl | hgrest
        · exact le_refl _
        · have := (List.pairwise_cons.mp hsorted).1 g hgrest
          simpa using this

theorem fetch_latest_file_picks_max_witness :
    ([⟨5, "a"⟩, ⟨9, "b"⟩, ⟨3, "c"⟩] : List KFile) ≠ []
    ∧ ∃ sel, fetch_latest_file [⟨5, "a"⟩, ⟨9, "b"⟩, ⟨3, "c"⟩] = some sel
        ∧ sel ∈ ([⟨5, "a"⟩, ⟨9, "b"⟩, ⟨3, "c"⟩] : List KFile)
        ∧ ∀ g ∈ ([⟨5, "a"⟩, ⟨9, "b"⟩, ⟨3, "c"⟩] : List KFile), g.created ≤ sel.created :=
  ⟨by decide, fetch_latest_file_picks_max [⟨5, "a"⟩, ⟨9, "b"⟩, ⟨3, "c"⟩] (by decide)⟩

/-- **C9**: in the serverless shell, a `day` query parameter that is absent,
not parseable as an integer, or negative is silently normalized to day index
0: the handler behaves exactly as if no `day` parameter had been sent. -/
theorem malformed_day_param_normalized (α : Type) (st : CacheState α) (now : Int)
    (env : String → Option String) (f : Option (Forecast α))
    (w : String → Option (List WarningElem)) (day? : Option String)
    (h : day? = none ∨ (∃ s, day? = some s ∧ pyInt? s = none)
         ∨ (∃ s n, day? = some s ∧ pyInt? s = some n ∧ n < 0)) :
    effectiveDayIndex day? = 0
    ∧ lambda_handler st now day? env f w = lambda_handler st now none env f w := by
  have heff : effectiveDayIndex day? = 0 := by
    rcases h with h | ⟨s, rfl, hs⟩ | ⟨s, n, rfl, hs, hn⟩
    · subst h; rfl
    · simp [effectiveDayIndex, hs]
    · simp [effectiveDayIndex, hs, hn]
  refine ⟨heff, ?_⟩
  rw [lambda_handler_cases st now day? env f w, lambda_handler_cases st now none env f w,
    heff, show effectiveDayIndex none = 0 from rfl]

theorem malformed_day_param_normalized_witness :
    effectiveDayIndex (some "oops") = 0
    ∧ lambda_handler (α := String) ⟨none, 0⟩ 5 (some "oops") (fun _ => none) none
        (fun _ => none)
      = lambda_handler ⟨none, 0⟩ 5 none (fun _ => none) none (fun _ => none) :=
  malformed_day_param_normalized String ⟨none, 0⟩ 5 (fun _ => none) none (fun _ => none)
    (some "oops") (Or.inr (Or.inl ⟨"oops", rfl, by decide⟩))

/-- **C10**: in both hosting shells a failed forecast fetch leaves the cache
state exactly as it was — payload and timestamp untouched — and a successful
run either leaves the state unchanged (fresh cache, no fetch) or replaces
payload and timestamp together. -/
theorem fetch_failure_preserves_cache (α : Type) (st : CacheState α) (now : Int)
    (day? : Option String) (day : Nat) (env : String → Option String)
    (w : String → Option (List WarningElem)) :
    (lambda_handler st now day? env none w).state = st
    ∧ (get_weather st now day env none w).state = st
    ∧ (∀ p, (lambda_handler st now day? env (some p) w).state = st
          ∨ (lambda_handler st now day? env (some p) w).state
              = { data_cache := some p, last_loaded := now })
    ∧ (∀ p, (get_weather st now day env (some p) w).state = st
          ∨ (get_weather st now day env (some p) w).state
              = { data_cache := some p, last_loaded := now }) := by
  refine ⟨?_, ?_, ?_, ?_⟩
  · rw [lambda_handler_state, refreshCache_none]
  · rw [get_weather_state, refreshCache_none]
  · intro p
    rw [lambda_handler_state]
    unfold refreshCache
    split
    · right; rfl
    · left; rfl
  · intro p
    rw [get_weather_state]
    unfold refreshCache
    split
    · right; rfl
    · left; rfl
